import Mathlib

/-!
Shallow embedding of the `usbd-gscan` USB CAN adapter class (src/lib.rs,
src/host.rs) and proofs about its bulk transport state machine, outbound
queueing engine and control-request dispatcher.

Modelling conventions:
* Machine integers are `Nat`; casts such as `as u8` become `% 256`.
* `host::Frame` is a `zerocopy` byte view (`repr(C)`, 80 bytes:
  4 echo_id + 4 can_id + 1 dlc + 1 interface + 1 flags + 1 reserved +
  68 union payload); we model it directly as its little-endian byte list,
  with field accessors, so `as_bytes` is the identity.
* Fallible paths return `Option`: `none` models a Rust `panic!` /
  `unwrap()` failure / out-of-bounds array index.
* The abstract `Device` capability is modelled as an append-only log of
  the calls made through the trait boundary.
* A USB endpoint write attempt either succeeds or fails (`WouldBlock`);
  each callback performs at most one write attempt, modelled by a `Bool`
  oracle argument. Successful writes are recorded as `WEvent`s.
-/

namespace GsUsb

/-- Little-endian encoding of a `u32` into four bytes. -/
def le32enc (n : Nat) : List Nat :=
  [n % 256, n / 256 % 256, n / 65536 % 256, n / 16777216 % 256]

/-- Little-endian decoding of (the first four bytes of) a byte list. -/
def le32dec (bs : List Nat) : Nat :=
  bs.getD 0 0 + 256 * bs.getD 1 0 + 65536 * bs.getD 2 0 + 16777216 * bs.getD 3 0

/-- `host::fd_dlc_to_len`: data length for a given DLC. -/
def fd_dlc_to_len (dlc : Nat) : Option Nat :=
  if dlc ≤ 8 then some dlc
  else if dlc = 9 then some 12
  else if dlc = 10 then some 16
  else if dlc = 11 then some 20
  else if dlc = 12 then some 24
  else if dlc = 13 then some 32
  else if dlc = 14 then some 48
  else if dlc = 15 then some 64
  else none

/-- `host::fd_len_to_dlc`: DLC for a given data length. The source
panics on a length outside the table; the panic is modelled as `none`. -/
def fd_len_to_dlc (len : Nat) : Option Nat :=
  if len ≤ 8 then some len
  else if len = 12 then some 9
  else if len = 16 then some 10
  else if len = 20 then some 11
  else if len = 24 then some 12
  else if len = 32 then some 13
  else if len = 48 then some 14
  else if len = 64 then some 15
  else none

/-- `host::Frame`, as its 80-byte `zerocopy` representation. -/
structure Frame where
  bytes : List Nat
deriving DecidableEq, Repr

/-- `Frame.echo_id`: little-endian `u32` at bytes 0..4. -/
def Frame.echo_id (f : Frame) : Nat := le32dec f.bytes

/-- `Frame.can_id`: little-endian `u32` at bytes 4..8. -/
def Frame.can_id (f : Frame) : Nat := le32dec (f.bytes.drop 4)

/-- `Frame.can_dlc`: byte 8. -/
def Frame.can_dlc (f : Frame) : Nat := f.bytes.getD 8 0

/-- `Frame.interface`: byte 9. -/
def Frame.interface (f : Frame) : Nat := f.bytes.getD 9 0

/-- `Frame.flags` (`FrameFlag` bit set): byte 10. -/
def Frame.flags (f : Frame) : Nat := f.bytes.getD 10 0

/-- Store `v` into the `echo_id` field (bytes 0..4). -/
def Frame.setEchoId (f : Frame) (v : Nat) : Frame :=
  ⟨le32enc v ++ f.bytes.drop 4⟩

/-- Store `v as u8` into the `interface` field (byte 9). -/
def Frame.setInterface (f : Frame) (v : Nat) : Frame :=
  ⟨f.bytes.take 9 ++ [v % 256] ++ f.bytes.drop 10⟩

/-- Store `v` into the `flags` field (byte 10). -/
def Frame.setFlags (f : Frame) (v : Nat) : Frame :=
  ⟨f.bytes.take 10 ++ [v % 256] ++ f.bytes.drop 11⟩

/-- `FrameFlag::FD` (1 << 1). -/
def frameFlagFD : Nat := 2

/-- `Feature::FD` (1 << 8). -/
def featureFD : Nat := 256

/-- `host::DeviceBitTiming`: five `u32` fields. -/
structure DeviceBitTiming where
  prop_seg : Nat
  phase_seg1 : Nat
  phase_seg2 : Nat
  sjw : Nat
  brp : Nat
deriving DecidableEq, Repr

/-- `zerocopy` decode of a 20-byte `DeviceBitTiming` payload. -/
def parseBitTiming (data : List Nat) : DeviceBitTiming :=
  ⟨le32dec data, le32dec (data.drop 4), le32dec (data.drop 8),
   le32dec (data.drop 12), le32dec (data.drop 16)⟩

/-- One invocation of the abstract `Device` capability trait. -/
inductive DevCall where
  | configureBitTiming (interface : Nat) (timing : DeviceBitTiming)
  | configureBitTimingData (interface : Nat) (timing : DeviceBitTiming)
  | resetIntf (interface : Nat)
  | startIntf (interface : Nat) (features : Nat)
  | receive (interface : Nat) (frame : Frame)
deriving DecidableEq, Repr

/-- The mutable state of `GsCan` (lib.rs). `device` is the log of calls
made through the `Device` capability boundary; the USB plumbing fields
(interface number, endpoint handles) carry no state of their own. -/
structure GsCan where
  interface_fd : List Bool
  out_queue : List Frame
  out_frame : Option Frame
  in_frame : Option Frame
  device : List DevCall
deriving DecidableEq, Repr

/-- Capacity of `heapless::spsc::Queue<host::Frame, 64>`: such a queue
stores at most `N - 1 = 63` elements (one slot of the ring buffer is
kept free to distinguish full from empty). -/
def outQueueCapacity : Nat := 63

/-- `out_queue.enqueue(frame)`: append at the tail if there is room,
silently drop the frame otherwise (the source only logs the error). -/
def enqueueFrame (q : List Frame) (f : Frame) : List Frame :=
  if q.length < outQueueCapacity then q ++ [f] else q

/-- A successful write on the bulk IN endpoint: either the first 64
bytes of a frame (`as_bytes()[..64]`) or its trailing 12 bytes
(`as_bytes()[64..76]`). -/
inductive WEvent where
  | firstHalf (f : Frame)
  | secondHalf (f : Frame)
deriving DecidableEq, Repr

/-- The shared tail of `GsCan::transmit` and `GsCan::endpoint_out`: if
no half-sent frame is pending and the endpoint accepts the first 64
bytes, the frame becomes the half-sent frame (bypassing the queue);
otherwise it is enqueued (dropped if the queue is full). -/
def sendToHost (s : GsCan) (f : Frame) (epOk : Bool) : GsCan × List WEvent :=
  match s.out_frame with
  | none =>
    if epOk then ({ s with out_frame := some f }, [WEvent.firstHalf f])
    else ({ s with out_queue := enqueueFrame s.out_queue f }, [])
  | some _ => ({ s with out_queue := enqueueFrame s.out_queue f }, [])

/-- The `embedded_can::Id` of an input frame. -/
inductive CanId where
  | standard (raw : Nat)
  | extended (raw : Nat)
deriving DecidableEq, Repr

/-- `IdFlag::EXTENDED`. -/
def idFlagExtended : Nat := 0x80000000

/-- The `can_id` field value for an `embedded_can::Id`. -/
def encodeCanId : CanId → Nat
  | CanId.standard raw => raw
  | CanId.extended raw => raw ||| idFlagExtended

/-- The `embedded_can::Frame` view of a frame handed to
`GsCan::transmit` (only the methods the source calls). -/
structure EcFrame where
  id : CanId
  remote : Bool
  dlc : Nat
  data : List Nat
deriving DecidableEq, Repr

/-- `host::Frame::new(id, data)` (host.rs): zeroed frame, `can_dlc`
from `fd_len_to_dlc` (whose panic propagates as `none`), `can_id` from
the identifier, data copied into the FD payload region. -/
def frameNew (id : CanId) (data : List Nat) : Option Frame :=
  match fd_len_to_dlc data.length with
  | none => none
  | some dlc =>
    some ⟨le32enc 0 ++ le32enc (encodeCanId id) ++ [dlc, 0, 0, 0] ++
          data ++ List.replicate (68 - data.length) 0⟩

/-- `host::Frame::new_remote(id, dlc)` (host.rs). -/
def frameNewRemote (id : CanId) (dlc : Nat) : Option Frame :=
  some ⟨le32enc 0 ++ le32enc (encodeCanId id) ++ [dlc % 256, 0, 0, 0] ++
        List.replicate 68 0⟩

/-- The frame `GsCan::transmit` builds before handing it to the send
path: constructed via `Frame::new` / `Frame::new_remote`, then
`echo_id = u32::MAX`, `interface`, `flags` are stamped. -/
def txFrame (interface : Nat) (ec : EcFrame) (flags : Nat) : Option Frame :=
  (if ec.remote then frameNewRemote ec.id ec.dlc else frameNew ec.id ec.data).map
    (fun f0 => ((f0.setEchoId 0xFFFFFFFF).setInterface interface).setFlags flags)

/-- `GsCan::transmit(interface, frame, flags)` (lib.rs). `none` models
the `.unwrap()` panic when `Frame::new` fails. -/
def transmit (s : GsCan) (interface : Nat) (ec : EcFrame) (flags : Nat)
    (epOk : Bool) : Option (GsCan × List WEvent) :=
  match txFrame interface ec flags with
  | none => none
  | some f => some (sendToHost s f epOk)

/-- `GsCan::poll` (lib.rs): if no half-sent frame is pending, peek the
queue head and, if the endpoint accepts its first 64 bytes, dequeue it
and make it the half-sent frame; otherwise try to write the pending
frame's trailing bytes 64..76, clearing the slot on success. -/
def poll (s : GsCan) (epOk : Bool) : GsCan × List WEvent :=
  match s.out_frame with
  | none =>
    match s.out_queue with
    | [] => (s, [])
    | f :: rest =>
      if epOk then
        ({ s with out_queue := rest, out_frame := some f }, [WEvent.firstHalf f])
      else (s, [])
  | some f =>
    if epOk then ({ s with out_frame := none }, [WEvent.secondHalf f])
    else (s, [])

/-- `GsCan::endpoint_in_complete` simply calls `poll`. -/
def endpointInComplete (s : GsCan) (epOk : Bool) : GsCan × List WEvent :=
  poll s epOk

/-- A run of drain steps (`poll` / `endpoint_in_complete`), one endpoint
oracle per step, collecting the emitted write events. -/
def drainRun (s : GsCan) : List Bool → GsCan × List WEvent
  | [] => (s, [])
  | b :: bs =>
    let r1 := poll s b
    let r2 := drainRun r1.1 bs
    (r2.1, r1.2 ++ r2.2)

/-- The per-frame expansion of a queue: each frame contributes its
first-half write followed by its second-half write. -/
def expandQueue (fs : List Frame) : List WEvent :=
  (fs.map (fun f => [WEvent.firstHalf f, WEvent.secondHalf f])).flatten

/-- Everything the drain path can still emit from a state: the pending
frame's second half (if any), then both halves of each queued frame in
queue order. -/
def emitFuture (s : GsCan) : List WEvent :=
  (match s.out_frame with
   | some f => [WEvent.secondHalf f]
   | none => []) ++ expandQueue s.out_queue

/-- Frame delivery in `GsCan::endpoint_out`: stamp `echo_id = 0`, call
`device.receive`, then echo the frame back through the send path. -/
def deliver (s : GsCan) (f : Frame) (epOk : Bool) : GsCan × List WEvent :=
  let f0 := f.setEchoId 0
  sendToHost
    { s with device := s.device ++ [DevCall.receive f0.interface f0] }
    f0 epOk

/-- `GsCan::endpoint_out` (lib.rs). `addr` is the endpoint index
(filtered against 2), `packet` the received OUT packet. `none` models a
panic: a packet larger than the read buffer (`read(..).unwrap()`), or
`interface_fd[frame.interface as usize]` with an out-of-range index. -/
def endpointOut (s : GsCan) (addr : Nat) (packet : List Nat) (epOk : Bool) :
    Option (GsCan × List WEvent) :=
  if addr ≠ 2 then some (s, [])
  else
    match s.in_frame with
    | none =>
      if packet.length > 64 then none
      else
        let f : Frame := ⟨packet ++ List.replicate (80 - packet.length) 0⟩
        if f.interface ≥ 3 then none
        else if s.interface_fd.getD f.interface false then
          some ({ s with in_frame := some f }, [])
        else some (deliver s f epOk)
    | some f0 =>
      if packet.length > 16 then none
      else
        let f : Frame := ⟨f0.bytes.take 64 ++ packet ++ f0.bytes.drop (64 + packet.length)⟩
        some (deliver { s with in_frame := none } f epOk)

/-- `control::RequestType` of a USB setup packet. -/
inductive RequestType where
  | standard
  | classType
  | vendor
  | reserved
deriving DecidableEq, Repr

/-- The parts of a USB control request the dispatcher reads. -/
structure ControlRequest where
  requestType : RequestType
  request : Nat
  value : Nat
deriving DecidableEq, Repr

/-- Outcome of a control-out transfer: `accept()`, `reject()`, or
returned untouched to the USB stack (non-vendor request). -/
inductive XferReply where
  | accepted
  | rejected
  | ignored
deriving DecidableEq, Repr

def REQ_HOST_FORMAT : Nat := 0
def REQ_BIT_TIMING : Nat := 1
def REQ_MODE : Nat := 2
def REQ_BIT_TIMING_DATA : Nat := 10

/-- `GsCan::control_out` (lib.rs). `none` models a panic:
`assert_eq!` on a wrong byte-order magic, `read_from`/`ref_from`
`.unwrap()` on a wrong payload size, `Mode::try_from(..).unwrap()` on an
undefined mode, or an out-of-range `interface_fd` index. -/
def controlOut (s : GsCan) (req : ControlRequest) (data : List Nat) :
    Option (GsCan × XferReply) :=
  if req.requestType ≠ RequestType.vendor then some (s, XferReply.ignored)
  else if req.request = REQ_HOST_FORMAT then
    if data.length ≠ 4 then some (s, XferReply.rejected)
    else if le32dec data = 0x0000beef then some (s, XferReply.accepted)
    else none
  else if req.request = REQ_BIT_TIMING then
    if data.length = 20 then
      some ({ s with device :=
        s.device ++ [DevCall.configureBitTiming (req.value % 256) (parseBitTiming data)] },
        XferReply.accepted)
    else none
  else if req.request = REQ_MODE then
    if data.length ≠ 8 then none
    else
      let i := req.value % 256
      if i ≥ 3 then none
      else
        let flags := le32dec (data.drop 4)
        let s1 := { s with interface_fd := s.interface_fd.set i (flags.testBit 8) }
        if le32dec data = 0 then
          some ({ s1 with device := s1.device ++ [DevCall.resetIntf i] }, XferReply.accepted)
        else if le32dec data = 1 then
          some ({ s1 with device := s1.device ++ [DevCall.startIntf i flags] }, XferReply.accepted)
        else none
  else if req.request = REQ_BIT_TIMING_DATA then
    if data.length = 20 then
      some ({ s with device :=
        s.device ++ [DevCall.configureBitTimingData (req.value % 256) (parseBitTiming data)] },
        XferReply.accepted)
    else none
  else some (s, XferReply.rejected)

/-- `GsCan::reset` (lib.rs): the protocol reset callback. -/
def GsCan.reset (s : GsCan) : GsCan :=
  { s with interface_fd := [false, false, false], out_queue := [],
           out_frame := none, in_frame := none }

/-- The valid CAN-FD payload lengths of the DLC table. -/
def validLens : List Nat := [0, 1, 2, 3, 4, 5, 6, 7, 8, 12, 16, 20, 24, 32, 48, 64]

/-- The state of a freshly constructed class (`GsCan::new`). -/
def initState : GsCan := ⟨[false, false, false], [], none, none, []⟩

/-- A concrete classic-CAN frame (FD flag clear), used as a test vector. -/
def nonFdFrame : Frame :=
  ⟨le32enc 0xFFFFFFFF ++ le32enc 5 ++ [8, 0, 0, 0] ++ List.replicate 68 7⟩

/-- A remote input frame for `transmit` with `dlc = n` (test vector);
`Frame::new_remote` never fails on these. -/
def ecRemoteProbe (n : Nat) : EcFrame := ⟨CanId.standard 5, true, n, []⟩

/-- The frame `transmit 0 (ecRemoteProbe n) 0` builds. -/
def txProbe (n : Nat) : Frame :=
  ⟨[255, 255, 255, 255, 5, 0, 0, 0, n % 256, 0, 0, 0] ++ List.replicate 68 0⟩

/-- Feed `n` probe frames through `transmit` while the half-sent slot
stays occupied, so every frame takes the enqueue path. -/
def c9Run (n : Nat) : GsCan :=
  (List.range n).foldl
    (fun s k =>
      match transmit s 0 (ecRemoteProbe k) 0 true with
      | some r => r.1
      | none => s)
    ⟨[false, false, false], [], some nonFdFrame, none, []⟩

/-- A 64-byte first OUT packet addressed to interface 1 (byte 9), with
the FD frame flag set (byte 10), used as a test vector. -/
def p1Probe : List Nat := le32enc 7 ++ le32enc 0x123 ++ [15, 1, 2, 0] ++ List.replicate 52 0xAB

/-- A 12-byte second OUT packet (test vector). -/
def p2Probe : List Nat := List.replicate 12 0xCD

/-- The frame `endpoint_out` assembles from a 64-byte first packet and
a 12-byte second packet, as delivered: bytes 76..80 stay zero and
`echo_id` is stamped to 0. -/
def assembledFrame (p1 p2 : List Nat) : Frame :=
  (Frame.mk (p1 ++ p2 ++ List.replicate 4 0)).setEchoId 0

/-- A first OUT packet whose interface byte (9) is 5, out of range. -/
def oobPacket : List Nat := (List.replicate 64 0).set 9 5

/-- C2: the DLC/length codec round-trips: every valid length survives
`fd_len_to_dlc` then `fd_dlc_to_len`, every DLC in 0..=15 survives
`fd_dlc_to_len` then `fd_len_to_dlc`, and the mapping follows exactly
the table DLC 0-8 ↦ DLC, 9 ↦ 12, 10 ↦ 16, 11 ↦ 20, 12 ↦ 24, 13 ↦ 32,
14 ↦ 48, 15 ↦ 64. -/
theorem dlc_len_roundtrip :
    (validLens.all fun len => (fd_len_to_dlc len).bind fd_dlc_to_len == some len) = true ∧
    ((List.range 16).all fun dlc => (fd_dlc_to_len dlc).bind fd_len_to_dlc == some dlc) = true ∧
    ((List.range 9).all fun dlc => fd_dlc_to_len dlc == some dlc) = true ∧
    fd_dlc_to_len 9 = some 12 ∧ fd_dlc_to_len 10 = some 16 ∧
    fd_dlc_to_len 11 = some 20 ∧ fd_dlc_to_len 12 = some 24 ∧
    fd_dlc_to_len 13 = some 32 ∧ fd_dlc_to_len 14 = some 48 ∧
    fd_dlc_to_len 15 = some 64 := by
  decide

/-- One drain step consumes the front of the state's pending emission
plan: the emitted events followed by the new state's plan reconstitute
the old state's plan. -/
theorem poll_emitFuture (s : GsCan) (b : Bool) :
    (poll s b).2 ++ emitFuture (poll s b).1 = emitFuture s := by
  obtain ⟨fd, q, of, inf, dev⟩ := s
  cases of with
  | none =>
    cases q with
    | nil => simp [poll, emitFuture]
    | cons f rest => cases b <;> simp [poll, emitFuture, expandQueue]
  | some f => cases b <;> simp [poll, emitFuture]

/-- A whole drain run consumes a prefix of the pending emission plan. -/
theorem drainRun_emitFuture (s : GsCan) (bs : List Bool) :
    (drainRun s bs).2 ++ emitFuture (drainRun s bs).1 = emitFuture s := by
  induction bs generalizing s with
  | nil => simp [drainRun]
  | cons b bs ih =>
    have h := poll_emitFuture s b
    simp only [drainRun]
    rw [List.append_assoc, ih (poll s b).1, h]

/-- C1: for every state of the outbound engine (any queue contents, in
enqueue order, and any pending half-sent frame) and every sequence of
drain steps (`poll` / `endpoint_in_complete`) with arbitrary endpoint
write outcomes, the emitted write trace is an initial segment of: the
pending frame's second half (if one is pending), then first half
followed by second half of each queued frame in enqueue order. Hence
frames go to the host in enqueue order, and while a half-sent frame is
pending no other frame's first 64 bytes are written before its
remaining bytes. -/
theorem drain_preserves_enqueue_order (s : GsCan) (bs : List Bool) :
    (drainRun s bs).2 ++ emitFuture (drainRun s bs).1 = emitFuture s ∧
    (drainRun s bs).2 = (emitFuture s).take (drainRun s bs).2.length := by
  refine ⟨drainRun_emitFuture s bs, ?_⟩
  conv_rhs => rw [← drainRun_emitFuture s bs]
  rw [List.take_left]

/-- C8: the protocol reset callback clears the per-interface FD-mode
array, empties the outbound queue, clears the half-sent transmit slot
and the receive-assembly slot, and touches nothing else (the
device-capability log is unchanged), for every prior state. -/
theorem reset_clears_state (s : GsCan) :
    GsCan.reset s = { interface_fd := [false, false, false], out_queue := [],
                      out_frame := none, in_frame := none, device := s.device } := rfl

/-- C4 (amended): in the drain step, when no half-sent frame is pending
and the first-64-byte write of the queue head succeeds, the frame is
popped from the queue and becomes the half-sent frame regardless of its
FD flag, and its trailing bytes 64..76 are written by a later
successful drain step for every frame, FD or not. -/
theorem poll_defers_second_half_always (s : GsCan) (f : Frame) (rest : List Frame)
    (h1 : s.out_frame = none) (h2 : s.out_queue = f :: rest) :
    poll s true = ({ s with out_queue := rest, out_frame := some f }, [WEvent.firstHalf f]) ∧
    poll { s with out_queue := rest, out_frame := some f } true =
      ({ s with out_queue := rest, out_frame := none }, [WEvent.secondHalf f]) := by
  obtain ⟨fd, q, of, inf, dev⟩ := s
  simp only at h1 h2
  subst h1; subst h2
  exact ⟨rfl, rfl⟩

/-- Witness for `poll_defers_second_half_always` at a concrete non-FD
frame. -/
theorem poll_defers_second_half_always_witness :
    poll ⟨[false, false, false], [nonFdFrame], none, none, []⟩ true =
      (⟨[false, false, false], [], some nonFdFrame, none, []⟩, [WEvent.firstHalf nonFdFrame]) ∧
    poll ⟨[false, false, false], [], some nonFdFrame, none, []⟩ true =
      (⟨[false, false, false], [], none, none, []⟩, [WEvent.secondHalf nonFdFrame]) :=
  poll_defers_second_half_always ⟨[false, false, false], [nonFdFrame], none, none, []⟩
    nonFdFrame [] rfl rfl

/-- C4 counterexample: a queue-head frame whose FD flag is clear still
becomes the half-sent frame once its first 64 bytes are written, and
its trailing bytes 64..76 are written by the next drain step — the
claim requires neither to happen for non-FD frames. -/
theorem poll_nonfd_counterexample :
    nonFdFrame.flags &&& frameFlagFD = 0 ∧
    (poll ⟨[false, false, false], [nonFdFrame], none, none, []⟩ true).1.out_frame = some nonFdFrame ∧
    (poll (poll ⟨[false, false, false], [nonFdFrame], none, none, []⟩ true).1 true).2 =
      [WEvent.secondHalf nonFdFrame] := by
  decide

/-- C5: SET_HOST_FORMAT behaviour at the decisive inputs: the
little-endian magic `0x0000beef` is accepted with no state change and
no device call; a 4-byte payload holding any other value (here
`0xdeadbeef`) runs into the `assert_eq!` and panics (modelled `none`)
instead of rejecting the transfer; a payload of the wrong length is
rejected without panicking. -/
theorem host_format_assert_panics :
    controlOut initState ⟨RequestType.vendor, REQ_HOST_FORMAT, 0⟩ [0xef, 0xbe, 0x00, 0x00] =
      some (initState, XferReply.accepted) ∧
    controlOut initState ⟨RequestType.vendor, REQ_HOST_FORMAT, 0⟩ [0xef, 0xbe, 0xad, 0xde] = none ∧
    controlOut initState ⟨RequestType.vendor, REQ_HOST_FORMAT, 0⟩ [0xef, 0xbe, 0x00] =
      some (initState, XferReply.rejected) := by
  decide

/-- C6: a SET_MODE transfer whose mode field is 2 (neither Reset nor
Start) makes the handler panic on `Mode::try_from(..).unwrap()`
(modelled `none`) — the transfer is not rejected, and the per-interface
FD flag has already been written before the panic. -/
theorem set_mode_invalid_panics :
    controlOut initState ⟨RequestType.vendor, REQ_MODE, 0⟩ [2, 0, 0, 0, 0, 0, 0, 0] = none := by
  decide

/-- C7 (amended): SET_MODE with mode=Reset on interface i calls
`reset(i)` and sets interface i's recorded FD flag to the FD bit of the
transfer's flags field (so it is cleared only when that bit is clear,
not unconditionally); mode=Start sets the FD flag from flags and then
calls `start(i, flags)`. -/
theorem set_mode_sets_fd_from_flags (s : GsCan) (req : ControlRequest) (data : List Nat)
    (hv : req.requestType = RequestType.vendor) (hr : req.request = REQ_MODE)
    (hl : data.length = 8) (hi : req.value % 256 < 3) :
    (le32dec data = 0 →
      controlOut s req data = some
        ({ s with
            interface_fd := s.interface_fd.set (req.value % 256) ((le32dec (data.drop 4)).testBit 8),
            device := s.device ++ [DevCall.resetIntf (req.value % 256)] },
         XferReply.accepted)) ∧
    (le32dec data = 1 →
      controlOut s req data = some
        ({ s with
            interface_fd := s.interface_fd.set (req.value % 256) ((le32dec (data.drop 4)).testBit 8),
            device := s.device ++ [DevCall.startIntf (req.value % 256) (le32dec (data.drop 4))] },
         XferReply.accepted)) := by
  obtain ⟨rt, rn, rv⟩ := req
  simp only at hv hr hi
  subst hv; subst hr
  have hn : ¬(3 ≤ rv % 256) := Nat.not_le.mpr hi
  constructor <;> intro hm <;>
    simp [controlOut, REQ_HOST_FORMAT, REQ_BIT_TIMING, REQ_MODE, REQ_BIT_TIMING_DATA,
      hl, hm, hn]

/-- Witness for `set_mode_sets_fd_from_flags`: SET_MODE(Start) on
interface 2 with the FD feature bit set records FD mode for interface 2
and calls `start(2, 0x100)`. -/
theorem set_mode_sets_fd_from_flags_witness :
    controlOut initState ⟨RequestType.vendor, REQ_MODE, 2⟩ [1, 0, 0, 0, 0, 1, 0, 0] =
      some (⟨[false, false, true], [], none, none, [DevCall.startIntf 2 256]⟩,
        XferReply.accepted) := by
  have h := (set_mode_sets_fd_from_flags initState ⟨RequestType.vendor, REQ_MODE, 2⟩
    [1, 0, 0, 0, 0, 1, 0, 0] rfl rfl rfl (by decide)).2 (by decide)
  simpa using h

/-- C7 counterexample: SET_MODE(Reset) on interface 1 with the FD
feature bit set in the flags field leaves interface 1's FD flag true —
the handler stores the FD bit from flags before dispatching on the
mode — while the claim requires the flag to become false regardless of
the flags field. -/
theorem set_mode_reset_fd_counterexample :
    controlOut initState ⟨RequestType.vendor, REQ_MODE, 1⟩ [0, 0, 0, 0, 0, 1, 0, 0] =
      some (⟨[false, true, false], [], none, none, [DevCall.resetIntf 1]⟩,
        XferReply.accepted) := by
  decide

/-- C9 (amended): the outbound queue is a bounded FIFO of capacity 63
(`heapless::spsc::Queue<_, 64>` stores at most N−1 elements). With the
half-sent slot occupied, `transmit` appends the new frame at the tail
when fewer than 63 frames are queued; when 63 frames are queued the new
frame is dropped and the entire class state — already-queued frames
included — is unchanged. -/
theorem transmit_queue_capacity (s : GsCan) (g f : Frame) (i fl : Nat) (ec : EcFrame) (b : Bool)
    (hs : s.out_frame = some g) (hf : txFrame i ec fl = some f) :
    (s.out_queue.length < 63 →
      transmit s i ec fl b = some ({ s with out_queue := s.out_queue ++ [f] }, [])) ∧
    (63 ≤ s.out_queue.length →
      transmit s i ec fl b = some (s, [])) := by
  obtain ⟨fd, q, of, inf, dev⟩ := s
  simp only at hs
  subst hs
  constructor <;> intro h <;>
    simp [transmit, hf, sendToHost, enqueueFrame, outQueueCapacity, h, Nat.not_lt.mpr]

/-- Witness for `transmit_queue_capacity`: with 63 frames queued and
the half-sent slot occupied, a further `transmit` changes nothing. -/
theorem transmit_queue_capacity_witness :
    transmit ⟨[false, false, false], List.replicate 63 (txProbe 0), some nonFdFrame, none, []⟩
        0 (ecRemoteProbe 1) 0 true =
      some (⟨[false, false, false], List.replicate 63 (txProbe 0), some nonFdFrame, none, []⟩, []) := by
  have h := (transmit_queue_capacity
    ⟨[false, false, false], List.replicate 63 (txProbe 0), some nonFdFrame, none, []⟩
    nonFdFrame (txProbe 1) 0 0 (ecRemoteProbe 1) true rfl (by decide)).2 (by decide)
  simpa using h

set_option maxRecDepth 100000 in
/-- C9 counterexample: enqueueing 64 frames through `transmit` with the
half-sent slot occupied retains only the first 63 of them — the 64th
enqueue already drops its frame, so the queue's capacity is 63, not 64
as claimed (the claim would have all 64 retained and only a 65th
dropped). -/
theorem queue_capacity_counterexample :
    (c9Run 64).out_queue.length = 63 ∧
    (c9Run 64).out_queue = (List.range 63).map txProbe := by
  decide

/-- C10 (amended): the bulk-out handler and the SET_MODE handler index
the 3-entry per-interface FD-mode array with the host-supplied
interface number without a range check. Every first bulk-OUT packet
whose interface byte (byte 9) is 3 or greater drives `endpoint_out`
into the out-of-bounds panic, and every SET_MODE transfer the low byte
of whose wValue (`wValue as u8`) is 3 or greater drives `control_out`
into the out-of-bounds panic; the operations are total only under the
precondition interface < 3. (wValue ≥ 3 alone is not enough: the code
truncates wValue to u8 first.) -/
theorem unchecked_interface_index (s : GsCan) (packet data : List Nat) (b : Bool)
    (req : ControlRequest)
    (hin : s.in_frame = none) (hp : packet.length ≤ 64) (hi : 3 ≤ packet.getD 9 0)
    (hv : req.requestType = RequestType.vendor) (hr : req.request = REQ_MODE)
    (hl : data.length = 8) (hw : 3 ≤ req.value % 256) :
    endpointOut s 2 packet b = none ∧ controlOut s req data = none := by
  constructor
  · obtain ⟨fd, q, of, inf, dev⟩ := s
    simp only at hin
    subst hin
    have hpad : (Frame.mk (packet ++ List.replicate (80 - packet.length) 0)).interface =
        packet.getD 9 0 := by
      unfold Frame.interface
      rcases Nat.lt_or_ge 9 packet.length with h | h
      · exact List.getD_append _ _ _ _ h
      · rw [List.getD_append_right _ _ _ _ h, List.getD_eq_getElem?_getD,
          List.getD_eq_default _ _ h]
        simp
    have hi9 : 3 ≤ packet[9]?.getD 0 := by
      simpa [List.getD_eq_getElem?_getD] using hi
    simp [endpointOut, Nat.not_lt.mpr hp, hpad]
    intro hlt
    omega
  · obtain ⟨rt, rn, rv⟩ := req
    simp only at hv hr hw
    subst hv; subst hr
    simp [controlOut, REQ_HOST_FORMAT, REQ_BIT_TIMING, REQ_MODE, REQ_BIT_TIMING_DATA, hl, hw]

/-- Witness for `unchecked_interface_index`: a bulk-out packet whose
interface byte is 5 and a SET_MODE transfer with wValue 3 both panic. -/
theorem unchecked_interface_index_witness :
    endpointOut initState 2 oobPacket true = none ∧
    controlOut initState ⟨RequestType.vendor, REQ_MODE, 3⟩ [0, 0, 0, 0, 0, 0, 0, 0] = none :=
  unchecked_interface_index initState oobPacket [0, 0, 0, 0, 0, 0, 0, 0] true
    ⟨RequestType.vendor, REQ_MODE, 3⟩ rfl (by decide) (by decide) rfl rfl rfl (by decide)

/-- C10 counterexample: a SET_MODE transfer with wValue = 256 (which is
3 or greater) does not reach the error branch: the handler truncates
the interface number to a u8, yielding interface 0, and the transfer
completes as a reset of interface 0. -/
theorem wvalue_truncation_counterexample :
    3 ≤ 256 ∧
    controlOut initState ⟨RequestType.vendor, REQ_MODE, 256⟩ [0, 0, 0, 0, 0, 0, 0, 0] =
      some (⟨[false, false, false], [], none, none, [DevCall.resetIntf 0]⟩,
        XferReply.accepted) := by
  decide

/-- The send path never touches the receive-assembly slot. -/
theorem sendToHost_in_frame (s : GsCan) (f : Frame) (b : Bool) :
    (sendToHost s f b).1.in_frame = s.in_frame := by
  obtain ⟨fd, q, of, inf, dev⟩ := s
  cases of <;> cases b <;> rfl

/-- The send path makes no device-capability call. -/
theorem sendToHost_device (s : GsCan) (f : Frame) (b : Bool) :
    (sendToHost s f b).1.device = s.device := by
  obtain ⟨fd, q, of, inf, dev⟩ := s
  cases of <;> cases b <;> rfl

/-- Stamping `echo_id` leaves the interface byte unchanged. -/
theorem setEchoId_interface (f : Frame) (v : Nat) :
    (f.setEchoId v).interface = f.interface := by
  unfold Frame.setEchoId Frame.interface le32enc
  rw [List.getD_append_right _ _ _ _ (by simp), List.getD_eq_getElem?_getD,
    List.getD_eq_getElem?_getD]
  simp [List.getElem?_drop]

/-- C3: on an interface whose recorded FD flag is true, delivering a
64-byte first bulk-OUT packet stores it as the partial frame without
calling the device, and delivering the 12-byte second packet assembles
the frame from the two halves (bytes 76..80 staying zero), stamps its
`echo_id` to 0, hands it to the device capability's receive exactly
once, and leaves the receive-assembly slot empty again. -/
theorem fd_two_packet_assembly (s : GsCan) (p1 p2 : List Nat) (b1 b2 : Bool)
    (hin : s.in_frame = none) (h1 : p1.length = 64) (h2 : p2.length = 12)
    (hi : p1.getD 9 0 < 3) (hfd : s.interface_fd.getD (p1.getD 9 0) false = true) :
    endpointOut s 2 p1 b1 = some ({ s with in_frame := some ⟨p1 ++ List.replicate 16 0⟩ }, []) ∧
    endpointOut { s with in_frame := some ⟨p1 ++ List.replicate 16 0⟩ } 2 p2 b2 =
      some (sendToHost
        { s with in_frame := none,
                 device := s.device ++ [DevCall.receive (p1.getD 9 0) (assembledFrame p1 p2)] }
        (assembledFrame p1 p2) b2) ∧
    (∀ r, endpointOut { s with in_frame := some ⟨p1 ++ List.replicate 16 0⟩ } 2 p2 b2 = some r →
        r.1.in_frame = none ∧
        r.1.device = s.device ++ [DevCall.receive (p1.getD 9 0) (assembledFrame p1 p2)]) ∧
    (assembledFrame p1 p2).echo_id = 0 := by
  obtain ⟨fd, q, of, inf, dev⟩ := s
  simp only at hin hfd
  subst hin
  have hi9 : p1[9]?.getD 0 < 3 := by
    simpa [List.getD_eq_getElem?_getD] using hi
  have hfd9 : fd[p1[9]?.getD 0]?.getD false = true := by
    simpa [List.getD_eq_getElem?_getD] using hfd
  have hpad9 : (Frame.mk (p1 ++ [0, 0, 0, 0, 0, 0, 0, 0, 0, 0, 0, 0, 0, 0, 0, 0])).interface =
      p1.getD 9 0 := by
    unfold Frame.interface
    exact List.getD_append _ _ _ _ (by omega)
  have ht : (p1 ++ [0, 0, 0, 0, 0, 0, 0, 0, 0, 0, 0, 0, 0, 0, 0, 0]).take 64 = p1 := by
    rw [← h1]
    exact List.take_left _ _
  have hd : (p1 ++ [0, 0, 0, 0, 0, 0, 0, 0, 0, 0, 0, 0, 0, 0, 0, 0]).drop 76 = [0, 0, 0, 0] := by
    have h76 : (76 : Nat) = p1.length + 12 := by omega
    rw [h76, List.drop_append]
    rfl
  have hintf : ((Frame.mk (p1 ++ (p2 ++ [0, 0, 0, 0]))).setEchoId 0).interface = p1.getD 9 0 := by
    rw [setEchoId_interface]
    unfold Frame.interface
    exact List.getD_append _ _ _ _ (by omega)
  have hsecond : endpointOut
      { interface_fd := fd, out_queue := q, out_frame := of,
        in_frame := some ⟨p1 ++ List.replicate 16 0⟩, device := dev } 2 p2 b2 =
      some (sendToHost
        { interface_fd := fd, out_queue := q, out_frame := of, in_frame := none,
          device := dev ++ [DevCall.receive (p1.getD 9 0) (assembledFrame p1 p2)] }
        (assembledFrame p1 p2) b2) := by
    simp [endpointOut, deliver, h2, ht, hd, hintf, assembledFrame]
  refine ⟨?_, hsecond, ?_, ?_⟩
  · have h9 : 9 < p1.length := by omega
    have e9 : p1[9]? = some p1[9] := List.getElem?_eq_getElem h9
    rw [e9] at hi9 hfd9
    simp only [Option.getD_some] at hi9 hfd9
    simp [endpointOut, h1, hpad9, Nat.not_le.mpr hi9, hfd9]
  · intro r hr
    rw [hsecond] at hr
    injection hr with hr'
    subst hr'
    refine ⟨?_, ?_⟩
    · rw [sendToHost_in_frame]
    · rw [sendToHost_device]
  · rfl

/-- Witness for `fd_two_packet_assembly` at concrete packets on
interface 1 (FD-enabled), with the echo write attempt failing so the
echoed frame lands in the outbound queue. -/
theorem fd_two_packet_assembly_witness :
    endpointOut ⟨[false, true, false], [], none, none, []⟩ 2 p1Probe true =
      some (⟨[false, true, false], [], none, some ⟨p1Probe ++ List.replicate 16 0⟩, []⟩, []) ∧
    endpointOut ⟨[false, true, false], [], none, some ⟨p1Probe ++ List.replicate 16 0⟩, []⟩
        2 p2Probe false =
      some (⟨[false, true, false], [assembledFrame p1Probe p2Probe], none, none,
             [DevCall.receive 1 (assembledFrame p1Probe p2Probe)]⟩, []) := by
  have h := fd_two_packet_assembly ⟨[false, true, false], [], none, none, []⟩ p1Probe p2Probe
    true false rfl (by decide) (by decide) (by decide) (by decide)
  exact ⟨h.1, h.2.1⟩

end GsUsb
